import Mathlib

set_option maxRecDepth 16384

/-!
Verification of the nsb8 core (src/nsb8.py): a two-pass-free assembler for a
small 8008-style instruction set and a fetch-decode-execute CPU interpreter
with a fixed cycle budget, a memory-mapped text screen and a final report.

The Python source is embedded shallowly: the registers, flags and CPU state
become records, the byte memory becomes a function `Nat → Nat` (the bytearray
is only ever indexed through a 14-bit mask), fallible Python operations
(`int()` on a bad literal, bytearray slice assignment with a non-byte value)
become `Option`/`PyResult`, and the `for`-loop of `execute` becomes a
fuel-indexed recursion that preserves the `for`-`else` semantics exactly.
-/

namespace Nsb8

/-- Decimal digit run of a Python `int()` literal: the value of a nonempty
all-digit character list, `none` otherwise. -/
def decDigits : List Char → Option Nat
  | [] => none
  | ds =>
    if ds.all Char.isDigit
    then some (ds.foldl (fun n c => 10 * n + (c.toNat - 48)) 0)
    else none

/-- Python `int(token)` for the whitespace-free tokens produced by
`str.split()`: an optional sign followed by a nonempty digit run; any other
token raises `ValueError` (modelled as `none`). -/
def pyInt (s : String) : Option Int :=
  match s.data with
  | '-' :: ds => (decDigits ds).map (fun n => -(n : Int))
  | '+' :: ds => (decDigits ds).map (fun n => (n : Int))
  | ds => (decDigits ds).map (fun n => (n : Int))

/-- The assembler's opcode table (lines 59-65): mnemonic to
(opcode byte, operand count). -/
def opcodes (m : String) : Option (Nat × Nat) :=
  if m = "HLT" then some (0x01, 0)
  else if m = "LAI" then some (0x06, 1)
  else if m = "LBI" then some (0x0E, 1)
  else if m = "LCI" then some (0x16, 1)
  else if m = "LDI" then some (0x26, 1)
  else if m = "LEI" then some (0x2E, 1)
  else if m = "LHI" then some (0x36, 1)
  else if m = "LLI" then some (0x3E, 1)
  else if m = "LAB" then some (0xC1, 0)
  else if m = "LBA" then some (0x87, 0)
  else if m = "ADB" then some (0x80, 0)
  else if m = "LAM" then some (0xC6, 0)
  else if m = "LMA" then some (0x77, 0)
  else if m = "JMP" then some (0x44, 2)
  else if m = "INB" then some (0x0C, 0)
  else if m = "DCB" then some (0x0D, 0)
  else if m = "SUI" then some (0x96, 1)
  else if m = "JFC" then some (0x40, 2)
  else if m = "JTC" then some (0x48, 2)
  else if m = "CAL" then some (0x46, 2)
  else none

/-- The ASCII whitespace set of Python's `str.split()` with no argument:
space, tab, newline, carriage return, vertical tab, form feed. -/
def pySpace (c : Char) : Bool :=
  c == ' ' || c == '\t' || c == '\n' || c == '\r' || c == Char.ofNat 11 || c == Char.ofNat 12

/-- Python `str.split(sep)` for a one-character separator, on the character
list: splitting on every occurrence, keeping empty pieces (so the result is
always nonempty). -/
def splitChar (sep : Char) : List Char → List (List Char)
  | [] => [[]]
  | c :: cs =>
    let r := splitChar sep cs
    if c = sep then [] :: r else (c :: r.headI) :: r.tail

/-- Line 66: `"\n".join([line.split(';')[0] for line in code.split('\n')])` -
everything after a `;` on each line is dropped (`line.split(';')[0]` is the
prefix of the line before its first `;`). -/
def stripComments (code : String) : String :=
  String.mk (List.intercalate [Char.ofNat 10]
    ((splitChar (Char.ofNat 10) code.data).map (List.takeWhile (fun c => c ≠ Char.ofNat 59))))

/-- Python `str.split()` with no argument: runs of non-whitespace characters,
with leading, trailing and repeated whitespace dropped. -/
def wsSplit (acc : List Char) : List Char → List String
  | [] => if acc = [] then [] else [String.mk acc.reverse]
  | c :: cs =>
    if pySpace c then
      if acc = [] then wsSplit [] cs else String.mk acc.reverse :: wsSplit [] cs
    else wsSplit (c :: acc) cs

/-- Line 67: `code_no_comments.upper().split()` - `.upper()` maps ASCII
letters to upper case character-wise. -/
def tokenize (code : String) : List String :=
  wsSplit [] (((stripComments code).data).map Char.toUpper)

/-- A Python call that either returns normally or raises an uncaught
exception. -/
inductive PyResult (α : Type) where
  | ok : α → PyResult α
  | exn : PyResult α
deriving DecidableEq

/-- Line 79: `f"Error: Unknown mnemonic '{mnemonic}'"`. -/
def unknownMsg (m : String) : String := "Error: Unknown mnemonic '" ++ (m ++ "'")

/-- Line 74: `f"Error: '{mnemonic}' needs {num_operands} operand(s)."`. -/
def needsMsg (m : String) (n : Nat) : String :=
  "Error: '" ++ (m ++ ("' needs " ++ (toString n ++ " operand(s).")))

/-- Line 80: `f"Assembled successfully. Program size: {len(bytecode)} bytes."`. -/
def sizeMsg (n : Nat) : String :=
  "Assembled successfully. Program size: " ++ toString n ++ " bytes."

/-- The assembler's token loop (lines 68-80): one mnemonic at a time; the
opcode byte is emitted, then exactly the declared number of operand tokens is
consumed.  A 1-operand instruction appends `int(tok)` unmasked; a 2-operand
instruction parses only its first operand token (the second is consumed
unused) and emits it little-endian - on a Python int, `& 0xFF` is `emod 256`
and `>> 8` is floor division by 256.  An `int()` failure on a malformed
literal propagates as an uncaught exception. -/
def asmLoop : List Int → List String → PyResult (Option (List Int) × String)
  | acc, [] => .ok (some acc, sizeMsg acc.length)
  | acc, m :: rest =>
    match opcodes m with
    | none => .ok (none, unknownMsg m)
    | some (op, nops) =>
      if rest.length < nops then .ok (none, needsMsg m nops)
      else
        match nops, rest with
        | 1, t :: rest =>
          (match pyInt t with
           | none => .exn
           | some v => asmLoop (acc ++ [(op : Int), v]) rest)
        | 2, t1 :: _ :: rest =>
          (match pyInt t1 with
           | none => .exn
           | some addr =>
             asmLoop (acc ++ [(op : Int), addr % 256, (addr.fdiv 256) % 256]) rest)
        | _, rest => asmLoop (acc ++ [(op : Int)]) rest

/-- `assemble(code)` (lines 57-80). -/
def assemble (code : String) : PyResult (Option (List Int) × String) :=
  asmLoop [] (tokenize code)

/-- The register file `{'A':0,'B':0,'C':0,'D':0,'E':0,'H':0,'L':0}`. -/
structure Regs where
  A : Nat
  B : Nat
  C : Nat
  D : Nat
  E : Nat
  H : Nat
  L : Nat
deriving DecidableEq

/-- The flag file `{'C':0,'Z':1,'S':0,'P':1}`. -/
structure Flags where
  C : Nat
  Z : Nat
  S : Nat
  P : Nat
deriving DecidableEq

/-- The CPU state of class `Intel8008` (lines 82-85). -/
structure Intel8008 where
  memory : Nat → Nat
  regs : Regs
  flags : Flags
  pc : Nat
  sp : Nat
  stack : List Nat
  halted : Bool

/-- `load_program` (line 86): `memory[0:len(b)] = b` over the zeroed
16384-byte array.  Slice assignment into a bytearray requires every value in
[0, 256) and raises `ValueError` otherwise (modelled as `none`); on success
the byte at address `a` is `b[a]` for `a < len b` and zero elsewhere. -/
def load_program (b : List Int) : Option (Nat → Nat) :=
  if b.all (fun v => decide (0 ≤ v ∧ v < 256)) then some (fun a => (b.getD a 0).toNat)
  else none

/-- `Intel8008.__init__` (lines 83-85), with the memory image (the zeroed
array as updated by `load_program`) as the parameter. -/
def initCPU (mem : Nat → Nat) : Intel8008 :=
  { memory := mem
    regs := { A := 0, B := 0, C := 0, D := 0, E := 0, H := 0, L := 0 }
    flags := { C := 0, Z := 1, S := 0, P := 1 }
    pc := 0
    sp := 0
    stack := List.replicate 7 0
    halted := false }

/-- `read_mem` (line 88): every read address is masked to 14 bits. -/
def read_mem (m : Nat → Nat) (a : Nat) : Nat := m (a &&& 0x3FFF)

/-- `write_mem` (line 89): the address is masked to 14 bits and the value to
8 bits. -/
def write_mem (m : Nat → Nat) (a v : Nat) : Nat → Nat :=
  fun x => if x = a &&& 0x3FFF then v &&& 0xFF else m x

/-- `get_hl` (line 87): H contributes only its low 6 bits. -/
def get_hl (r : Regs) : Nat := ((r.H &&& 0x3F) <<< 8) ||| r.L

/-- `bin(v).count('1')` for a byte: the number of set bits among bits 0-7. -/
def bitCount8 (v : Nat) : Nat := (List.range 8).countP (fun i => v.testBit i)

/-- `update_flags` (lines 90-91): recompute Z, S, P from `v & 0xFF`
(`1 if (v & 0x80) else 0` tests non-zeroness); the C flag is untouched. -/
def update_flags (f : Flags) (v0 : Nat) : Flags :=
  let v := v0 &&& 0xFF
  { f with
    Z := if v = 0 then 1 else 0
    S := if v &&& 0x80 ≠ 0 then 1 else 0
    P := if bitCount8 v % 2 = 0 then 1 else 0 }

/-- One fetch-decode-execute iteration: the body of `execute`'s loop
(lines 95-119).  Unhandled opcodes fall through the `elif` chain as no-ops.
`(B - 1) & 0xFF` and `r & 0xFF` on possibly negative Python ints are
`(· % 256).toNat` on `Int`. -/
def step (c0 : Intel8008) : Intel8008 :=
  let op := read_mem c0.memory c0.pc
  let c := { c0 with pc := c0.pc + 1 }
  if op = 0x01 then { c with halted := true }
  else if op = 0x06 then
    { c with regs := { c.regs with A := read_mem c.memory c.pc }, pc := c.pc + 1 }
  else if op = 0x0E then
    { c with regs := { c.regs with B := read_mem c.memory c.pc }, pc := c.pc + 1 }
  else if op = 0x16 then
    { c with regs := { c.regs with C := read_mem c.memory c.pc }, pc := c.pc + 1 }
  else if op = 0x26 then
    { c with regs := { c.regs with D := read_mem c.memory c.pc }, pc := c.pc + 1 }
  else if op = 0x2E then
    { c with regs := { c.regs with E := read_mem c.memory c.pc }, pc := c.pc + 1 }
  else if op = 0x36 then
    { c with regs := { c.regs with H := read_mem c.memory c.pc }, pc := c.pc + 1 }
  else if op = 0x3E then
    { c with regs := { c.regs with L := read_mem c.memory c.pc }, pc := c.pc + 1 }
  else if op = 0xC1 then { c with regs := { c.regs with A := c.regs.B } }
  else if op = 0x87 then { c with regs := { c.regs with B := c.regs.A } }
  else if op = 0x80 then
    let r := c.regs.A + c.regs.B
    let f := { c.flags with C := if 255 < r then 1 else 0 }
    { c with regs := { c.regs with A := r &&& 0xFF }, flags := update_flags f (r &&& 0xFF) }
  else if op = 0xC6 then { c with regs := { c.regs with A := read_mem c.memory (get_hl c.regs) } }
  else if op = 0x77 then { c with memory := write_mem c.memory (get_hl c.regs) c.regs.A }
  else if op = 0x44 ∨ op = 0x40 ∨ op = 0x48 ∨ op = 0x46 then
    let l := read_mem c.memory c.pc
    let h := read_mem c.memory (c.pc + 1)
    let a := (h <<< 8) ||| l
    let j : Bool := decide (op = 0x44) || (decide (op = 0x40) && decide (c.flags.C = 0))
      || (decide (op = 0x48) && decide (c.flags.C = 1)) || decide (op = 0x46)
    let c := if op = 0x46 then
        { c with stack := c.stack.set c.sp (c.pc + 2), sp := (c.sp + 1) % 7 }
      else c
    if j then { c with pc := a } else { c with pc := c.pc + 2 }
  else if op = 0x0C then
    let b := (c.regs.B + 1) &&& 0xFF
    { c with regs := { c.regs with B := b }, flags := update_flags c.flags b }
  else if op = 0x0D then
    let b := (((c.regs.B : Int) - 1) % 256).toNat
    { c with regs := { c.regs with B := b }, flags := update_flags c.flags b }
  else if op = 0x96 then
    let d := read_mem c.memory c.pc
    let c := { c with pc := c.pc + 1 }
    let r : Int := (c.regs.A : Int) - (d : Int)
    let f := { c.flags with C := if r < 0 then 1 else 0 }
    let a := (r % 256).toNat
    { c with regs := { c.regs with A := a }, flags := update_flags f a }
  else c

/-- The state after `n` executed loop bodies. -/
def steps : Nat → Intel8008 → Intel8008
  | 0, c => c
  | n + 1, c => steps n (step c)

/-- `for _ in range(n): if self.halted: break; <body>` together with the
`for`-`else` clause (lines 93-121).  The `else` fires exactly when all `n`
iterations ran without `break`, so a halt that only happens inside the final
iteration still returns the cycle-limit warning. -/
def execLoop : Nat → Intel8008 → Intel8008 × String
  | 0, c => (c, "Warning: Execution hit max cycle limit.")
  | n + 1, c =>
    if c.halted then (c, "Execution halted normally.") else execLoop n (step c)

/-- `Intel8008.execute` (lines 92-121): the loop with its 300000-iteration
cycle budget. -/
def execute (c : Intel8008) : Intel8008 × String := execLoop 300000 c

/-- One screen byte as rendered characters:
`chr(c) if 32 <= c < 127 else "Â·"` (line 124; the placeholder literal in the
source is the two characters U+00C2 and U+00B7). -/
def renderByte (c : Nat) : List Char :=
  if 32 ≤ c ∧ c < 127 then [Char.ofNat c] else [Char.ofNat 0xC2, Char.ofNat 0xB7]

/-- `get_screen` (lines 122-125): render the 274-byte window
[0xEEE, 0xFFF]. -/
def get_screen (m : Nat → Nat) : String :=
  String.mk (((List.range 274).map (fun i => renderByte (m (0xEEE + i)))).flatten)

/-- The final report (lines 131-133). -/
def fullReport (status : String) (c : Intel8008) (haltStatus : String) : String :=
  let r := c.regs
  let f := c.flags
  let czsp := toString f.C ++ toString f.Z ++ toString f.S ++ toString f.P
  status ++ "\n" ++ haltStatus ++ "\n---\nScreen (0xEEE-FFF):\n" ++ get_screen c.memory
    ++ "\n---\n" ++ "Final A:" ++ toString r.A ++ " B:" ++ toString r.B
    ++ " C:" ++ toString r.C ++ " D:" ++ toString r.D ++ " E:" ++ toString r.E
    ++ " H:" ++ toString r.H ++ " L:" ++ toString r.L ++ " | Flags(CZSP):" ++ czsp

/-- The module-level driver (lines 127-133): assemble, and unless
`not bytecode` holds (assembly failed, or the program is empty - the empty
list is falsy in Python), load the bytecode, execute and render the report.
`none` models an uncaught exception (a malformed `int()` literal or a
non-byte value reaching `load_program`). -/
def driver (src : String) : Option String :=
  match assemble src with
  | .exn => none
  | .ok (none, status) => some status
  | .ok (some [], status) => some status
  | .ok (some (b :: bs), status) =>
    match load_program (b :: bs) with
    | none => none
    | some mem =>
      let r := execute (initCPU mem)
      some (fullReport status r.1 r.2)

attribute [ext] Regs Flags Intel8008

/-! ### Arithmetic and addressing helpers -/

theorem land_16383 (a : Nat) : a &&& 16383 = a % 16384 := by
  have h := Nat.and_pow_two_sub_one_eq_mod a 14
  norm_num at h
  exact h

theorem land_255 (a : Nat) : a &&& 255 = a % 256 := by
  have h := Nat.and_pow_two_sub_one_eq_mod a 8
  norm_num at h
  exact h

/-- A read at an in-range address is the plain memory cell. -/
theorem read_mem_lt (m : Nat → Nat) (a : Nat) (h : a < 16384) : read_mem m a = m a := by
  unfold read_mem
  rw [land_16383, Nat.mod_eq_of_lt h]

/-- The little-endian branch target of a jump/call whose opcode byte sits at
`c.pc`: two operand bytes, low then high. -/
def jumpTarget (c : Intel8008) : Nat :=
  (read_mem c.memory (c.pc + 2)) <<< 8 ||| read_mem c.memory (c.pc + 1)

/-! ### One step, characterized per opcode -/

theorem step_HLT (c : Intel8008) (h : read_mem c.memory c.pc = 0x01) :
    step c = { c with pc := c.pc + 1, halted := true } := by
  unfold step
  rw [h]
  norm_num

theorem step_LAI (c : Intel8008) (h : read_mem c.memory c.pc = 0x06) :
    step c = { c with regs := { c.regs with A := read_mem c.memory (c.pc + 1) },
                      pc := c.pc + 2 } := by
  unfold step
  rw [h]
  norm_num

theorem step_LBI (c : Intel8008) (h : read_mem c.memory c.pc = 0x0E) :
    step c = { c with regs := { c.regs with B := read_mem c.memory (c.pc + 1) },
                      pc := c.pc + 2 } := by
  unfold step
  rw [h]
  norm_num

theorem step_LHI (c : Intel8008) (h : read_mem c.memory c.pc = 0x36) :
    step c = { c with regs := { c.regs with H := read_mem c.memory (c.pc + 1) },
                      pc := c.pc + 2 } := by
  unfold step
  rw [h]
  norm_num

theorem step_LLI (c : Intel8008) (h : read_mem c.memory c.pc = 0x3E) :
    step c = { c with regs := { c.regs with L := read_mem c.memory (c.pc + 1) },
                      pc := c.pc + 2 } := by
  unfold step
  rw [h]
  norm_num

theorem step_LAB (c : Intel8008) (h : read_mem c.memory c.pc = 0xC1) :
    step c = { c with regs := { c.regs with A := c.regs.B }, pc := c.pc + 1 } := by
  unfold step
  rw [h]
  norm_num

theorem step_ADB (c : Intel8008) (h : read_mem c.memory c.pc = 0x80) :
    step c = { c with
      regs := { c.regs with A := (c.regs.A + c.regs.B) &&& 255 }
      flags := update_flags { c.flags with C := if 255 < c.regs.A + c.regs.B then 1 else 0 }
        ((c.regs.A + c.regs.B) &&& 255)
      pc := c.pc + 1 } := by
  unfold step
  rw [h]
  norm_num

theorem step_LMA (c : Intel8008) (h : read_mem c.memory c.pc = 0x77) :
    step c = { c with memory := write_mem c.memory (get_hl c.regs) c.regs.A,
                      pc := c.pc + 1 } := by
  unfold step
  rw [h]
  norm_num

theorem step_DCB (c : Intel8008) (h : read_mem c.memory c.pc = 0x0D) :
    step c = { c with
      regs := { c.regs with B := (((c.regs.B : Int) - 1) % 256).toNat }
      flags := update_flags c.flags ((((c.regs.B : Int) - 1) % 256).toNat)
      pc := c.pc + 1 } := by
  unfold step
  rw [h]
  norm_num

theorem step_SUI (c : Intel8008) (h : read_mem c.memory c.pc = 0x96) :
    step c = { c with
      regs := { c.regs with
        A := (((c.regs.A : Int) - (read_mem c.memory (c.pc + 1) : Nat)) % 256).toNat }
      flags := update_flags
        { c.flags with
          C := if ((c.regs.A : Int) - (read_mem c.memory (c.pc + 1) : Nat)) < 0 then 1 else 0 }
        ((((c.regs.A : Int) - (read_mem c.memory (c.pc + 1) : Nat)) % 256).toNat)
      pc := c.pc + 2 } := by
  unfold step
  rw [h]
  norm_num

theorem step_JMP (c : Intel8008) (h : read_mem c.memory c.pc = 0x44) :
    step c = { c with pc := jumpTarget c } := by
  unfold step jumpTarget
  rw [h]
  norm_num

theorem step_JFC_taken (c : Intel8008) (h : read_mem c.memory c.pc = 0x40)
    (hc : c.flags.C = 0) : step c = { c with pc := jumpTarget c } := by
  unfold step jumpTarget
  rw [h]
  norm_num [hc]

theorem step_JFC_not (c : Intel8008) (h : read_mem c.memory c.pc = 0x40)
    (hc : c.flags.C ≠ 0) : step c = { c with pc := c.pc + 3 } := by
  unfold step
  rw [h]
  norm_num [hc]

theorem step_JTC_taken (c : Intel8008) (h : read_mem c.memory c.pc = 0x48)
    (hc : c.flags.C = 1) : step c = { c with pc := jumpTarget c } := by
  unfold step jumpTarget
  rw [h]
  norm_num [hc]

theorem step_JTC_not (c : Intel8008) (h : read_mem c.memory c.pc = 0x48)
    (hc : c.flags.C ≠ 1) : step c = { c with pc := c.pc + 3 } := by
  unfold step
  rw [h]
  norm_num [hc]

theorem step_CAL (c : Intel8008) (h : read_mem c.memory c.pc = 0x46) :
    step c = { c with pc := jumpTarget c,
                      sp := (c.sp + 1) % 7,
                      stack := c.stack.set c.sp (c.pc + 3) } := by
  unfold step jumpTarget
  rw [h]
  norm_num

theorem step_noop (c : Intel8008) (h : read_mem c.memory c.pc = 0) :
    step c = { c with pc := c.pc + 1 } := by
  unfold step
  rw [h]
  norm_num

/-- No opcode but `0x46` (CAL) ever touches the stack or the stack pointer. -/
theorem step_stack_frame (c : Intel8008) (h : read_mem c.memory c.pc ≠ 0x46) :
    (step c).stack = c.stack ∧ (step c).sp = c.sp := by
  unfold step
  dsimp only
  by_cases h1 : read_mem c.memory c.pc = 1
  · rw [if_pos h1]
    exact ⟨rfl, rfl⟩
  rw [if_neg h1]
  by_cases h6 : read_mem c.memory c.pc = 6
  · rw [if_pos h6]
    exact ⟨rfl, rfl⟩
  rw [if_neg h6]
  by_cases h14 : read_mem c.memory c.pc = 14
  · rw [if_pos h14]
    exact ⟨rfl, rfl⟩
  rw [if_neg h14]
  by_cases h22 : read_mem c.memory c.pc = 22
  · rw [if_pos h22]
    exact ⟨rfl, rfl⟩
  rw [if_neg h22]
  by_cases h38 : read_mem c.memory c.pc = 38
  · rw [if_pos h38]
    exact ⟨rfl, rfl⟩
  rw [if_neg h38]
  by_cases h46 : read_mem c.memory c.pc = 46
  · rw [if_pos h46]
    exact ⟨rfl, rfl⟩
  rw [if_neg h46]
  by_cases h54 : read_mem c.memory c.pc = 54
  · rw [if_pos h54]
    exact ⟨rfl, rfl⟩
  rw [if_neg h54]
  by_cases h62 : read_mem c.memory c.pc = 62
  · rw [if_pos h62]
    exact ⟨rfl, rfl⟩
  rw [if_neg h62]
  by_cases h193 : read_mem c.memory c.pc = 193
  · rw [if_pos h193]
    exact ⟨rfl, rfl⟩
  rw [if_neg h193]
  by_cases h135 : read_mem c.memory c.pc = 135
  · rw [if_pos h135]
    exact ⟨rfl, rfl⟩
  rw [if_neg h135]
  by_cases h128 : read_mem c.memory c.pc = 128
  · rw [if_pos h128]
    exact ⟨rfl, rfl⟩
  rw [if_neg h128]
  by_cases h198 : read_mem c.memory c.pc = 198
  · rw [if_pos h198]
    exact ⟨rfl, rfl⟩
  rw [if_neg h198]
  by_cases h119 : read_mem c.memory c.pc = 119
  · rw [if_pos h119]
    exact ⟨rfl, rfl⟩
  rw [if_neg h119]
  by_cases hj : read_mem c.memory c.pc = 68 ∨ read_mem c.memory c.pc = 64 ∨
      read_mem c.memory c.pc = 72 ∨ read_mem c.memory c.pc = 70
  · rw [if_pos hj, if_neg h]
    split_ifs <;> exact ⟨rfl, rfl⟩
  rw [if_neg hj]
  by_cases h12 : read_mem c.memory c.pc = 12
  · rw [if_pos h12]
    exact ⟨rfl, rfl⟩
  rw [if_neg h12]
  by_cases h13 : read_mem c.memory c.pc = 13
  · rw [if_pos h13]
    exact ⟨rfl, rfl⟩
  rw [if_neg h13]
  by_cases h150 : read_mem c.memory c.pc = 150
  · rw [if_pos h150]
    exact ⟨rfl, rfl⟩
  rw [if_neg h150]
  exact ⟨rfl, rfl⟩

/-- A step never clears the halted flag. -/
theorem step_halted_mono (c : Intel8008) (h : c.halted = true) :
    (step c).halted = true := by
  unfold step
  dsimp only
  by_cases h1 : read_mem c.memory c.pc = 1
  · rw [if_pos h1]
  rw [if_neg h1]
  by_cases h6 : read_mem c.memory c.pc = 6
  · rw [if_pos h6]
    exact h
  rw [if_neg h6]
  by_cases h14 : read_mem c.memory c.pc = 14
  · rw [if_pos h14]
    exact h
  rw [if_neg h14]
  by_cases h22 : read_mem c.memory c.pc = 22
  · rw [if_pos h22]
    exact h
  rw [if_neg h22]
  by_cases h38 : read_mem c.memory c.pc = 38
  · rw [if_pos h38]
    exact h
  rw [if_neg h38]
  by_cases h46 : read_mem c.memory c.pc = 46
  · rw [if_pos h46]
    exact h
  rw [if_neg h46]
  by_cases h54 : read_mem c.memory c.pc = 54
  · rw [if_pos h54]
    exact h
  rw [if_neg h54]
  by_cases h62 : read_mem c.memory c.pc = 62
  · rw [if_pos h62]
    exact h
  rw [if_neg h62]
  by_cases h193 : read_mem c.memory c.pc = 193
  · rw [if_pos h193]
    exact h
  rw [if_neg h193]
  by_cases h135 : read_mem c.memory c.pc = 135
  · rw [if_pos h135]
    exact h
  rw [if_neg h135]
  by_cases h128 : read_mem c.memory c.pc = 128
  · rw [if_pos h128]
    exact h
  rw [if_neg h128]
  by_cases h198 : read_mem c.memory c.pc = 198
  · rw [if_pos h198]
    exact h
  rw [if_neg h198]
  by_cases h119 : read_mem c.memory c.pc = 119
  · rw [if_pos h119]
    exact h
  rw [if_neg h119]
  by_cases hj : read_mem c.memory c.pc = 68 ∨ read_mem c.memory c.pc = 64 ∨
      read_mem c.memory c.pc = 72 ∨ read_mem c.memory c.pc = 70
  · rw [if_pos hj]
    split_ifs <;> exact h
  rw [if_neg hj]
  by_cases h12 : read_mem c.memory c.pc = 12
  · rw [if_pos h12]
    exact h
  rw [if_neg h12]
  by_cases h13 : read_mem c.memory c.pc = 13
  · rw [if_pos h13]
    exact h
  rw [if_neg h13]
  by_cases h150 : read_mem c.memory c.pc = 150
  · rw [if_pos h150]
    exact h
  rw [if_neg h150]
  exact h

/-! ### The execution loop -/

theorem steps_succ (n : Nat) (c : Intel8008) : steps (n + 1) c = steps n (step c) := rfl

theorem steps_add (m n : Nat) (c : Intel8008) : steps (m + n) c = steps n (steps m c) := by
  induction m generalizing c with
  | zero => rw [Nat.zero_add]; rfl
  | succ m ih => rw [Nat.succ_add, steps_succ, steps_succ, ih]

theorem steps_halted_of_halted (n : Nat) (c : Intel8008) (h : c.halted = true) :
    (steps n c).halted = true := by
  induction n generalizing c with
  | zero => exact h
  | succ n ih => exact ih (step c) (step_halted_mono c h)

/-- If the machine is still running after `n` bodies, it was running at every
earlier point. -/
theorem steps_halted_false (n i : Nat) (c : Intel8008) (h : (steps n c).halted = false)
    (hi : i ≤ n) : (steps i c).halted = false := by
  cases hh : (steps i c).halted
  · rfl
  · exfalso
    have h2 : (steps n c).halted = true := by
      have h3 := steps_halted_of_halted (n - i) (steps i c) hh
      rw [← steps_add] at h3
      rwa [Nat.add_sub_cancel' hi] at h3
    rw [h2] at h
    exact Bool.noConfusion h

theorem execLoop_zero (c : Intel8008) :
    execLoop 0 c = (c, "Warning: Execution hit max cycle limit.") := rfl

theorem execLoop_succ_halted (n : Nat) (c : Intel8008) (h : c.halted = true) :
    execLoop (n + 1) c = (c, "Execution halted normally.") := by
  show (if c.halted = true then (c, "Execution halted normally.") else execLoop n (step c)) = _
  rw [if_pos h]

theorem execLoop_succ_run (n : Nat) (c : Intel8008) (h : c.halted = false) :
    execLoop (n + 1) c = execLoop n (step c) := by
  show (if c.halted = true then (c, "Execution halted normally.") else execLoop n (step c)) = _
  rw [if_neg (by simp [h])]

/-- Running a `k + n` budget with no halt at any of the first `k` checks is
running an `n` budget from the `k`-step state. -/
theorem execLoop_add (k n : Nat) (c : Intel8008)
    (h : ∀ i, i < k → (steps i c).halted = false) :
    execLoop (k + n) c = execLoop n (steps k c) := by
  induction k generalizing c with
  | zero => rw [Nat.zero_add]; rfl
  | succ k ih =>
    rw [Nat.succ_add, execLoop_succ_run (k + n) c (h 0 (Nat.succ_pos k)),
      ih (step c) (fun i hi => h (i + 1) (by omega)), steps_succ]

/-- If the halted flag is still false at every check, the loop runs all its
iterations and the `for`-`else` clause returns the warning. -/
theorem execLoop_warn (n : Nat) (c : Intel8008)
    (h : ∀ i, i < n → (steps i c).halted = false) :
    execLoop n c = (steps n c, "Warning: Execution hit max cycle limit.") := by
  have h2 := execLoop_add n 0 c h
  rw [Nat.add_zero] at h2
  rw [h2, execLoop_zero]

/-- If the halted flag is set strictly before the final budgeted check, the
loop breaks and reports the normal halt. -/
theorem execLoop_normal (n k : Nat) (c : Intel8008) (hk : k < n)
    (hh : (steps k c).halted = true) :
    (execLoop n c).2 = "Execution halted normally." := by
  induction n generalizing k c with
  | zero => omega
  | succ n ih =>
    cases h0 : c.halted
    · rw [execLoop_succ_run n c h0]
      cases k with
      | zero =>
        rw [show steps 0 c = c from rfl, h0] at hh
        exact Bool.noConfusion hh
      | succ k => exact ih k (step c) (by omega) hh
    · rw [execLoop_succ_halted n c h0]

/-- The loop executes at most its budget of bodies. -/
theorem execLoop_le (n : Nat) (c : Intel8008) :
    ∃ k, k ≤ n ∧ (execLoop n c).1 = steps k c := by
  induction n generalizing c with
  | zero => exact ⟨0, Nat.le_refl 0, rfl⟩
  | succ n ih =>
    cases h0 : c.halted
    · obtain ⟨k, hk, he⟩ := ih (step c)
      exact ⟨k + 1, by omega, by rw [execLoop_succ_run n c h0, he, steps_succ]⟩
    · refine ⟨0, Nat.zero_le _, ?_⟩
      rw [execLoop_succ_halted n c h0]
      rfl


theorem steps_one (c : Intel8008) : steps 1 c = step c := rfl

/-! ### A program that first sets Halted on the final budgeted iteration

`LBI 122; outer: LAI 5; inner: SUI 1; <407 no-op bytes>; JFC inner; DCB;
LAB; SUI 1; JFC outer; HLT`.  One middle pass costs `1 + 6*409 + 4 = 2459`
iterations, the outer counter runs it 122 times, and with the leading `LBI`
and the final `HLT` the halt instruction executes on iteration
`2 + 2459 * 122 = 300000` exactly. -/

def progC1 : List Nat :=
  [0x0E, 122, 0x06, 5, 0x96, 1] ++ List.replicate 407 0
    ++ [0x40, 4, 0, 0x0D, 0xC1, 0x96, 1, 0x40, 2, 0, 0x01]

/-- The memory image of `progC1` loaded at address 0. -/
def memC1 : Nat → Nat := fun a => progC1.getD a 0

/-- The machine states the counting program walks through, parameterised by
the program counter, the A and B registers and the four flags. -/
def stC1 (p a b fC fZ fS fP : Nat) : Intel8008 :=
  { memory := memC1
    regs := { A := a, B := b, C := 0, D := 0, E := 0, H := 0, L := 0 }
    flags := { C := fC, Z := fZ, S := fS, P := fP }
    pc := p
    sp := 0
    stack := List.replicate 7 0
    halted := false }

def zFlag (v : Nat) : Nat := if v = 0 then 1 else 0

def sFlag (v : Nat) : Nat := if v &&& 0x80 ≠ 0 then 1 else 0

def pFlag (v : Nat) : Nat := if bitCount8 v % 2 = 0 then 1 else 0

theorem update_flags_lt (f : Flags) (v : Nat) (h : v < 256) :
    update_flags f v = { f with Z := zFlag v, S := sFlag v, P := pFlag v } := by
  unfold update_flags zFlag sFlag pFlag
  dsimp only
  rw [land_255, Nat.mod_eq_of_lt h]

theorem getD_replicate (n i : Nat) (h : i < n) :
    (List.replicate n (0 : Nat)).getD i 0 = 0 := by
  rw [List.getD_eq_getElem _ _ (by simpa using h)]
  exact List.getElem_replicate ..

theorem memC1_noop (j : Nat) (h : j < 407) : memC1 (6 + j) = 0 := by
  unfold memC1 progC1
  have hlen1 : ([14, 122, 6, 5, 150, 1] : List Nat).length = 6 := rfl
  have hlen2 : (([14, 122, 6, 5, 150, 1] : List Nat) ++ List.replicate 407 0).length = 413 := by
    rw [List.length_append, hlen1, List.length_replicate]
  rw [List.getD_append _ _ _ _ (by rw [hlen2]; omega),
    List.getD_append_right _ _ _ _ (by rw [hlen1]; omega), hlen1,
    show 6 + j - 6 = j from by omega]
  exact getD_replicate _ _ h

/-- Chain two step-count computations. -/
theorem steps_chain (m n : Nat) (c c1 c2 : Intel8008)
    (h1 : steps m c = c1) (h2 : steps n c1 = c2) : steps (m + n) c = c2 := by
  rw [steps_add, h1, h2]

/-- The first loop body: `LBI 122`. -/
theorem c1_LBI : step (initCPU memC1) = stC1 2 0 122 0 1 0 1 := rfl

/-- `SUI 1` on a positive accumulator: decrement A, clear Carry, recompute
Z/S/P.  Holds at both `SUI 1` sites (addresses 4 and 418). -/
theorem c1_SUI (p : Nat) (hp : read_mem memC1 p = 0x96) (hd : read_mem memC1 (p + 1) = 1)
    (a b fC fZ fS fP : Nat) (h1 : 1 ≤ a) (h2 : a ≤ 255) :
    step (stC1 p a b fC fZ fS fP)
      = stC1 (p + 2) (a - 1) b 0 (zFlag (a - 1)) (sFlag (a - 1)) (pFlag (a - 1)) := by
  rw [step_SUI _ hp]
  show ({ stC1 p a b fC fZ fS fP with
    regs := { (stC1 p a b fC fZ fS fP).regs with
      A := (((a : Int) - (read_mem memC1 (p + 1) : Nat)) % 256).toNat }
    flags := update_flags
      { (stC1 p a b fC fZ fS fP).flags with
        C := if ((a : Int) - (read_mem memC1 (p + 1) : Nat)) < 0 then 1 else 0 }
      ((((a : Int) - (read_mem memC1 (p + 1) : Nat)) % 256).toNat)
    pc := p + 2 } : Intel8008) = _
  rw [hd]
  have key : (((a : Int) - (1 : Nat)) % 256).toNat = a - 1 := by
    push_cast
    omega
  rw [key, if_neg (by push_cast; omega), update_flags_lt _ _ (by omega)]
  rfl

/-- `SUI 1` on a zero accumulator: A wraps to 255 and Carry is set. -/
theorem c1_SUI_zero (p : Nat) (hp : read_mem memC1 p = 0x96)
    (hd : read_mem memC1 (p + 1) = 1) (b fC fZ fS fP : Nat) :
    step (stC1 p 0 b fC fZ fS fP) = stC1 (p + 2) 255 b 1 0 1 1 := by
  rw [step_SUI _ hp]
  show ({ stC1 p 0 b fC fZ fS fP with
    regs := { (stC1 p 0 b fC fZ fS fP).regs with
      A := ((((0 : Nat) : Int) - (read_mem memC1 (p + 1) : Nat)) % 256).toNat }
    flags := update_flags
      { (stC1 p 0 b fC fZ fS fP).flags with
        C := if (((0 : Nat) : Int) - (read_mem memC1 (p + 1) : Nat)) < 0 then 1 else 0 }
      (((((0 : Nat) : Int) - (read_mem memC1 (p + 1) : Nat)) % 256).toNat)
    pc := p + 2 } : Intel8008) = _
  rw [hd]
  norm_num
  rfl

/-- The no-op slide: 407 zero bytes at addresses 6-412. -/
theorem c1_noops (j : Nat) (a b fC fZ fS fP : Nat) : ∀ p, 6 ≤ p → p + j ≤ 413 →
    steps j (stC1 p a b fC fZ fS fP) = stC1 (p + j) a b fC fZ fS fP := by
  induction j with
  | zero => intro p _ _; rfl
  | succ j ih =>
    intro p hp hpj
    rw [steps_succ]
    have hop : read_mem memC1 p = 0 := by
      rw [read_mem_lt _ _ (by omega)]
      have h0 := memC1_noop (p - 6) (by omega)
      rwa [show 6 + (p - 6) = p by omega] at h0
    rw [show step (stC1 p a b fC fZ fS fP) = stC1 (p + 1) a b fC fZ fS fP from by
      rw [step_noop _ hop]; rfl]
    rw [ih (p + 1) (by omega) (by omega), show p + 1 + j = p + (j + 1) by omega]

/-- The middle-pass head: `LAI 5` at address 2. -/
theorem c1_LAI (a b fC fZ fS fP : Nat) :
    step (stC1 2 a b fC fZ fS fP) = stC1 4 5 b fC fZ fS fP := by
  have h5 : read_mem (stC1 2 a b fC fZ fS fP).memory ((stC1 2 a b fC fZ fS fP).pc + 1) = 5 :=
    show read_mem memC1 3 = 5 by decide
  rw [step_LAI _ (show read_mem memC1 2 = 0x06 by decide), h5]
  rfl

/-- `JFC 4` at address 413 with Carry clear: jump back to the inner `SUI`. -/
theorem c1_JFC1_taken (a b fZ fS fP : Nat) :
    step (stC1 413 a b 0 fZ fS fP) = stC1 4 a b 0 fZ fS fP := by
  have hl : read_mem (stC1 413 a b 0 fZ fS fP).memory
      ((stC1 413 a b 0 fZ fS fP).pc + 1) = 4 :=
    show read_mem memC1 414 = 4 by decide
  have hh : read_mem (stC1 413 a b 0 fZ fS fP).memory
      ((stC1 413 a b 0 fZ fS fP).pc + 2) = 0 :=
    show read_mem memC1 415 = 0 by decide
  rw [step_JFC_taken _ (show read_mem memC1 413 = 0x40 by decide) rfl]
  unfold jumpTarget
  rw [hl, hh]
  rfl

/-- `JFC 4` at address 413 with Carry set: fall through to the `DCB`. -/
theorem c1_JFC1_not (a b fZ fS fP : Nat) :
    step (stC1 413 a b 1 fZ fS fP) = stC1 416 a b 1 fZ fS fP := by
  rw [step_JFC_not _ (show read_mem memC1 413 = 0x40 by decide)
    (show (1 : Nat) ≠ 0 by decide)]
  rfl

/-- `DCB` at address 416 on a positive B. -/
theorem c1_DCB (a b fC fZ fS fP : Nat) (h1 : 1 ≤ b) (h2 : b ≤ 255) :
    step (stC1 416 a b fC fZ fS fP)
      = stC1 417 a (b - 1) fC (zFlag (b - 1)) (sFlag (b - 1)) (pFlag (b - 1)) := by
  rw [step_DCB _ (show read_mem memC1 416 = 0x0D by decide)]
  show ({ stC1 416 a b fC fZ fS fP with
    regs := { (stC1 416 a b fC fZ fS fP).regs with B := (((b : Int) - 1) % 256).toNat }
    flags := update_flags (stC1 416 a b fC fZ fS fP).flags ((((b : Int) - 1) % 256).toNat)
    pc := 416 + 1 } : Intel8008) = _
  have key : (((b : Int) - 1) % 256).toNat = b - 1 := by omega
  rw [key, update_flags_lt _ _ (by omega)]
  rfl

/-- `LAB` at address 417. -/
theorem c1_LAB (a b fC fZ fS fP : Nat) :
    step (stC1 417 a b fC fZ fS fP) = stC1 418 b b fC fZ fS fP := by
  rw [step_LAB _ (show read_mem memC1 417 = 0xC1 by decide)]
  rfl

/-- `JFC 2` at address 420 with Carry clear: next middle pass. -/
theorem c1_JFC2_taken (a b fZ fS fP : Nat) :
    step (stC1 420 a b 0 fZ fS fP) = stC1 2 a b 0 fZ fS fP := by
  have hl : read_mem (stC1 420 a b 0 fZ fS fP).memory
      ((stC1 420 a b 0 fZ fS fP).pc + 1) = 2 :=
    show read_mem memC1 421 = 2 by decide
  have hh : read_mem (stC1 420 a b 0 fZ fS fP).memory
      ((stC1 420 a b 0 fZ fS fP).pc + 2) = 0 :=
    show read_mem memC1 422 = 0 by decide
  rw [step_JFC_taken _ (show read_mem memC1 420 = 0x40 by decide) rfl]
  unfold jumpTarget
  rw [hl, hh]
  rfl

/-- `JFC 2` at address 420 with Carry set: fall through to the `HLT`. -/
theorem c1_JFC2_not (a b fZ fS fP : Nat) :
    step (stC1 420 a b 1 fZ fS fP) = stC1 423 a b 1 fZ fS fP := by
  rw [step_JFC_not _ (show read_mem memC1 420 = 0x40 by decide)
    (show (1 : Nat) ≠ 0 by decide)]
  rfl

/-- One taken inner pass: `SUI 1`, the 407 no-ops, `JFC 4` taken;
409 iterations. -/
theorem c1_inner_taken (a b fC fZ fS fP : Nat) (h1 : 1 ≤ a) (h2 : a ≤ 255) :
    steps 409 (stC1 4 a b fC fZ fS fP)
      = stC1 4 (a - 1) b 0 (zFlag (a - 1)) (sFlag (a - 1)) (pFlag (a - 1)) :=
  steps_chain 1 408 _ (stC1 6 (a - 1) b 0 (zFlag (a - 1)) (sFlag (a - 1)) (pFlag (a - 1))) _
    (by rw [steps_one]; exact c1_SUI 4 (by decide) (by decide) a b fC fZ fS fP h1 h2)
    (steps_chain 407 1 _
      (stC1 413 (a - 1) b 0 (zFlag (a - 1)) (sFlag (a - 1)) (pFlag (a - 1))) _
      (c1_noops 407 _ _ _ _ _ _ 6 (by omega) (by omega))
      (by rw [steps_one]; exact c1_JFC1_taken _ _ _ _ _))

/-- The exiting inner pass (A = 0): `SUI 1` wraps and sets Carry, the no-ops
run, `JFC 4` falls through. -/
theorem c1_inner_exit (b fC fZ fS fP : Nat) :
    steps 409 (stC1 4 0 b fC fZ fS fP) = stC1 416 255 b 1 0 1 1 :=
  steps_chain 1 408 _ (stC1 6 255 b 1 0 1 1) _
    (by rw [steps_one]; exact c1_SUI_zero 4 (by decide) (by decide) b fC fZ fS fP)
    (steps_chain 407 1 _ (stC1 413 255 b 1 0 1 1) _
      (c1_noops 407 _ _ _ _ _ _ 6 (by omega) (by omega))
      (by rw [steps_one]; exact c1_JFC1_not _ _ _ _ _))

/-- The whole inner loop from `LAI 5`: passes at A = 5, 4, 3, 2, 1 are taken,
the pass at A = 0 exits; 6 * 409 = 2454 iterations. -/
theorem c1_inner_all (b fC fZ fS fP : Nat) :
    steps 2454 (stC1 4 5 b fC fZ fS fP) = stC1 416 255 b 1 0 1 1 :=
  steps_chain 409 2045 _ (stC1 4 4 b 0 (zFlag 4) (sFlag 4) (pFlag 4)) _
    (c1_inner_taken 5 b fC fZ fS fP (by norm_num) (by norm_num))
    (steps_chain 409 1636 _ (stC1 4 3 b 0 (zFlag 3) (sFlag 3) (pFlag 3)) _
      (c1_inner_taken 4 b 0 (zFlag 4) (sFlag 4) (pFlag 4) (by norm_num) (by norm_num))
      (steps_chain 409 1227 _ (stC1 4 2 b 0 (zFlag 2) (sFlag 2) (pFlag 2)) _
        (c1_inner_taken 3 b 0 (zFlag 3) (sFlag 3) (pFlag 3) (by norm_num) (by norm_num))
        (steps_chain 409 818 _ (stC1 4 1 b 0 (zFlag 1) (sFlag 1) (pFlag 1)) _
          (c1_inner_taken 2 b 0 (zFlag 2) (sFlag 2) (pFlag 2) (by norm_num) (by norm_num))
          (steps_chain 409 409 _ (stC1 4 0 b 0 (zFlag 0) (sFlag 0) (pFlag 0)) _
            (c1_inner_taken 1 b 0 (zFlag 1) (sFlag 1) (pFlag 1) (by norm_num) (by norm_num))
            (c1_inner_exit b 0 (zFlag 0) (sFlag 0) (pFlag 0))))))

/-- One full middle pass with 2 ≤ B: 2459 iterations, B drops by one and the
control returns to address 2. -/
theorem c1_middle (a b fC fZ fS fP : Nat) (h1 : 2 ≤ b) (h2 : b ≤ 255) :
    steps 2459 (stC1 2 a b fC fZ fS fP)
      = stC1 2 (b - 2) (b - 1) 0 (zFlag (b - 2)) (sFlag (b - 2)) (pFlag (b - 2)) :=
  steps_chain 1 2458 _ (stC1 4 5 b fC fZ fS fP) _
    (by rw [steps_one]; exact c1_LAI a b fC fZ fS fP)
    (steps_chain 2454 4 _ (stC1 416 255 b 1 0 1 1) _
      (c1_inner_all b fC fZ fS fP)
      (steps_chain 1 3 _
        (stC1 417 255 (b - 1) 1 (zFlag (b - 1)) (sFlag (b - 1)) (pFlag (b - 1))) _
        (by rw [steps_one]; exact c1_DCB 255 b 1 0 1 1 (by omega) h2)
        (steps_chain 1 2 _
          (stC1 418 (b - 1) (b - 1) 1 (zFlag (b - 1)) (sFlag (b - 1)) (pFlag (b - 1))) _
          (by rw [steps_one]; exact c1_LAB 255 (b - 1) 1 _ _ _)
          (steps_chain 1 1 _
            (stC1 420 (b - 2) (b - 1) 0 (zFlag (b - 2)) (sFlag (b - 2)) (pFlag (b - 2))) _
            (by rw [steps_one]
                have h := c1_SUI 418 (by decide) (by decide) (b - 1) (b - 1) 1
                  (zFlag (b - 1)) (sFlag (b - 1)) (pFlag (b - 1)) (by omega) (by omega)
                rwa [show b - 1 - 1 = b - 2 from by omega] at h)
            (by rw [steps_one]; exact c1_JFC2_taken _ _ _ _ _)))))

/-- The last middle pass (B = 1): B drops to zero, the exit `SUI 1` sets
Carry, `JFC 2` falls through and the pass ends on the `HLT` address 423. -/
theorem c1_middle_last (a fC fZ fS fP : Nat) :
    steps 2459 (stC1 2 a 1 fC fZ fS fP) = stC1 423 255 0 1 0 1 1 :=
  steps_chain 1 2458 _ (stC1 4 5 1 fC fZ fS fP) _
    (by rw [steps_one]; exact c1_LAI a 1 fC fZ fS fP)
    (steps_chain 2454 4 _ (stC1 416 255 1 1 0 1 1) _
      (c1_inner_all 1 fC fZ fS fP)
      (steps_chain 1 3 _ (stC1 417 255 0 1 (zFlag 0) (sFlag 0) (pFlag 0)) _
        (by rw [steps_one]; exact c1_DCB 255 1 1 0 1 1 (by omega) (by omega))
        (steps_chain 1 2 _ (stC1 418 0 0 1 (zFlag 0) (sFlag 0) (pFlag 0)) _
          (by rw [steps_one]; exact c1_LAB 255 0 1 _ _ _)
          (steps_chain 1 1 _ (stC1 420 255 0 1 0 1 1) _
            (by rw [steps_one]; exact c1_SUI_zero 418 (by decide) (by decide) 0 _ _ _ _)
            (by rw [steps_one]; exact c1_JFC2_not _ _ _ _ _)))))

/-- The outer loop: after `j` middle passes (1 ≤ j ≤ 121) the B counter is
down to `122 - j`. -/
theorem c1_outer (j : Nat) (h1 : 1 ≤ j) (h2 : j ≤ 121) :
    steps (2459 * j) (stC1 2 0 122 0 1 0 1)
      = stC1 2 (121 - j) (122 - j) 0 (zFlag (121 - j)) (sFlag (121 - j)) (pFlag (121 - j)) := by
  induction j with
  | zero => omega
  | succ j ih =>
    by_cases hj : j = 0
    · subst hj
      have h := c1_middle 0 122 0 1 0 1 (by norm_num) (by norm_num)
      rw [show 2459 * (0 + 1) = 2459 by norm_num]
      exact h
    · have hmid := c1_middle (121 - j) (122 - j) 0 (zFlag (121 - j)) (sFlag (121 - j))
        (pFlag (121 - j)) (by omega) (by omega)
      rw [show 122 - j - 2 = 121 - (j + 1) by omega,
        show 122 - j - 1 = 122 - (j + 1) by omega] at hmid
      have hall := steps_chain (2459 * j) 2459 _ _ _ (ih (by omega) (by omega)) hmid
      rwa [show 2459 * j + 2459 = 2459 * (j + 1) by ring] at hall

/-- After 299999 loop bodies the counting program sits on the `HLT` at
address 423, still running. -/
theorem c1_at_299999 : steps 299999 (initCPU memC1) = stC1 423 255 0 1 0 1 1 :=
  steps_chain 1 299998 _ (stC1 2 0 122 0 1 0 1) _
    (by rw [steps_one]; exact c1_LBI)
    (steps_chain 297539 2459 _ (stC1 2 0 1 0 (zFlag 0) (sFlag 0) (pFlag 0)) _
      (by have h := c1_outer 121 (by norm_num) (by norm_num)
          rwa [show 2459 * 121 = 297539 by norm_num] at h)
      (c1_middle_last 0 0 (zFlag 0) (sFlag 0) (pFlag 0)))

/-- The 300000th loop body executes `HLT`. -/
theorem c1_at_300000 : (steps 300000 (initCPU memC1)).halted = true := by
  rw [show (300000 : Nat) = 299999 + 1 by norm_num, steps_add, c1_at_299999]
  rfl

/-! ### Helpers for the claim theorems -/

/-- The sign test `v & 0x80` is exactly bit 7. -/
theorem land_128_testBit (v : Nat) : v &&& 0x80 ≠ 0 ↔ v.testBit 7 := by
  have h := Nat.and_two_pow v 7
  norm_num at h
  rw [h]
  cases hb : v.testBit 7 <;> simp

/-- String append is associative (needed to peel the "Error: " prefix off the
diagnostic messages). -/
theorem str_append_assoc (a b c : String) : a ++ b ++ c = a ++ (b ++ c) := by
  obtain ⟨a⟩ := a
  obtain ⟨b⟩ := b
  obtain ⟨c⟩ := c
  show String.mk (a ++ b ++ c) = String.mk (a ++ (b ++ c))
  rw [List.append_assoc]

/-- `asmLoop` on an exhausted token list: success with the size report. -/
theorem asmLoop_nil (acc : List Int) :
    asmLoop acc [] = .ok (some acc, sizeMsg acc.length) := rfl

/-- `asmLoop` on an unknown mnemonic. -/
theorem asmLoop_unknown (acc : List Int) (m : String) (rest : List String)
    (h : opcodes m = none) : asmLoop acc (m :: rest) = .ok (none, unknownMsg m) := by
  unfold asmLoop
  rw [h]

/-- `asmLoop` when too few operand tokens remain. -/
theorem asmLoop_needs (acc : List Int) (m : String) (rest : List String) (op n : Nat)
    (h : opcodes m = some (op, n)) (hlen : rest.length < n) :
    asmLoop acc (m :: rest) = .ok (none, needsMsg m n) := by
  unfold asmLoop
  rw [h]
  show (if rest.length < n then PyResult.ok (none, needsMsg m n) else _) = _
  rw [if_pos hlen]

/-- `asmLoop` on a 1-operand instruction with a parseable literal: the opcode
and the unmasked value are appended. -/
theorem asmLoop_one (acc : List Int) (m t : String) (rest : List String) (op : Nat) (v : Int)
    (h : opcodes m = some (op, 1)) (hv : pyInt t = some v) :
    asmLoop acc (m :: t :: rest) = asmLoop (acc ++ [(op : Int), v]) rest := by
  conv_lhs => unfold asmLoop
  rw [h]
  show (if (t :: rest).length < 1 then PyResult.ok (none, needsMsg m 1)
    else match pyInt t with
      | none => PyResult.exn
      | some v => asmLoop (acc ++ [(op : Int), v]) rest) = _
  rw [if_neg (by simp), hv]

/-- `asmLoop` on a 1-operand instruction with an unparseable literal:
`int()` raises. -/
theorem asmLoop_one_exn (acc : List Int) (m t : String) (rest : List String) (op : Nat)
    (h : opcodes m = some (op, 1)) (hv : pyInt t = none) :
    asmLoop acc (m :: t :: rest) = .exn := by
  unfold asmLoop
  rw [h]
  show (if (t :: rest).length < 1 then PyResult.ok (none, needsMsg m 1)
    else match pyInt t with
      | none => PyResult.exn
      | some v => asmLoop (acc ++ [(op : Int), v]) rest) = _
  rw [if_neg (by simp), hv]

/-- `asmLoop` on a 2-operand instruction: only the first operand token is
parsed (the second is consumed unused) and it is emitted little-endian. -/
theorem asmLoop_two (acc : List Int) (m t1 t2 : String) (rest : List String) (op : Nat)
    (addr : Int) (h : opcodes m = some (op, 2)) (hv : pyInt t1 = some addr) :
    asmLoop acc (m :: t1 :: t2 :: rest)
      = asmLoop (acc ++ [(op : Int), addr % 256, (addr.fdiv 256) % 256]) rest := by
  conv_lhs => unfold asmLoop
  rw [h]
  show (if (t1 :: t2 :: rest).length < 2 then PyResult.ok (none, needsMsg m 2)
    else match pyInt t1 with
      | none => PyResult.exn
      | some addr => asmLoop (acc ++ [(op : Int), addr % 256, (addr.fdiv 256) % 256]) rest) = _
  rw [if_neg (by simp), hv]

theorem asmLoop_two_exn (acc : List Int) (m t1 t2 : String) (rest : List String) (op : Nat)
    (h : opcodes m = some (op, 2)) (hv : pyInt t1 = none) :
    asmLoop acc (m :: t1 :: t2 :: rest) = .exn := by
  unfold asmLoop
  rw [h]
  show (if (t1 :: t2 :: rest).length < 2 then PyResult.ok (none, needsMsg m 2)
    else match pyInt t1 with
      | none => PyResult.exn
      | some addr => asmLoop (acc ++ [(op : Int), addr % 256, (addr.fdiv 256) % 256]) rest) = _
  rw [if_neg (by simp), hv]

/-- `asmLoop` on a 0-operand instruction: just the opcode byte. -/
theorem asmLoop_zero_ops (acc : List Int) (m : String) (rest : List String) (op : Nat)
    (h : opcodes m = some (op, 0)) :
    asmLoop acc (m :: rest) = asmLoop (acc ++ [(op : Int)]) rest := by
  conv_lhs => unfold asmLoop
  rw [h]
  show (if rest.length < 0 then PyResult.ok (none, needsMsg m 0)
    else asmLoop (acc ++ [(op : Int)]) rest) = _
  rw [if_neg (by simp)]

/-- The opcode table only declares operand counts 0, 1 and 2. -/
theorem opcodes_nops (m : String) (op n : Nat) (h : opcodes m = some (op, n)) : n ≤ 2 := by
  unfold opcodes at h
  by_cases h0 : m = "HLT"
  · rw [if_pos h0] at h
    simp at h
    omega
  rw [if_neg h0] at h
  by_cases h1 : m = "LAI"
  · rw [if_pos h1] at h
    simp at h
    omega
  rw [if_neg h1] at h
  by_cases h2 : m = "LBI"
  · rw [if_pos h2] at h
    simp at h
    omega
  rw [if_neg h2] at h
  by_cases h3 : m = "LCI"
  · rw [if_pos h3] at h
    simp at h
    omega
  rw [if_neg h3] at h
  by_cases h4 : m = "LDI"
  · rw [if_pos h4] at h
    simp at h
    omega
  rw [if_neg h4] at h
  by_cases h5 : m = "LEI"
  · rw [if_pos h5] at h
    simp at h
    omega
  rw [if_neg h5] at h
  by_cases h6 : m = "LHI"
  · rw [if_pos h6] at h
    simp at h
    omega
  rw [if_neg h6] at h
  by_cases h7 : m = "LLI"
  · rw [if_pos h7] at h
    simp at h
    omega
  rw [if_neg h7] at h
  by_cases h8 : m = "LAB"
  · rw [if_pos h8] at h
    simp at h
    omega
  rw [if_neg h8] at h
  by_cases h9 : m = "LBA"
  · rw [if_pos h9] at h
    simp at h
    omega
  rw [if_neg h9] at h
  by_cases h10 : m = "ADB"
  · rw [if_pos h10] at h
    simp at h
    omega
  rw [if_neg h10] at h
  by_cases h11 : m = "LAM"
  · rw [if_pos h11] at h
    simp at h
    omega
  rw [if_neg h11] at h
  by_cases h12 : m = "LMA"
  · rw [if_pos h12] at h
    simp at h
    omega
  rw [if_neg h12] at h
  by_cases h13 : m = "JMP"
  · rw [if_pos h13] at h
    simp at h
    omega
  rw [if_neg h13] at h
  by_cases h14 : m = "INB"
  · rw [if_pos h14] at h
    simp at h
    omega
  rw [if_neg h14] at h
  by_cases h15 : m = "DCB"
  · rw [if_pos h15] at h
    simp at h
    omega
  rw [if_neg h15] at h
  by_cases h16 : m = "SUI"
  · rw [if_pos h16] at h
    simp at h
    omega
  rw [if_neg h16] at h
  by_cases h17 : m = "JFC"
  · rw [if_pos h17] at h
    simp at h
    omega
  rw [if_neg h17] at h
  by_cases h18 : m = "JTC"
  · rw [if_pos h18] at h
    simp at h
    omega
  rw [if_neg h18] at h
  by_cases h19 : m = "CAL"
  · rw [if_pos h19] at h
    simp at h
    omega
  rw [if_neg h19] at h
  simp at h

/-- Every failing assembler diagnostic starts with "Error: ". -/
theorem asmLoop_err_shape (toks : List String) (acc : List Int) (s : String)
    (h : asmLoop acc toks = .ok (none, s)) : ∃ r, s = "Error: " ++ r := by
  induction acc, toks using asmLoop.induct with
  | case1 acc =>
    rw [asmLoop_nil] at h
    simp at h
  | case2 acc m rest hop =>
    rw [asmLoop_unknown acc m rest hop] at h
    simp only [PyResult.ok.injEq, Prod.mk.injEq, true_and] at h
    exact ⟨"Unknown mnemonic '" ++ (m ++ "'"), by
      rw [← h]
      exact str_append_assoc "Error: " "Unknown mnemonic '" (m ++ "'")⟩
  | case3 acc m rest op nops hop hlen =>
    rw [asmLoop_needs acc m rest op nops hop hlen] at h
    simp only [PyResult.ok.injEq, Prod.mk.injEq, true_and] at h
    exact ⟨"'" ++ (m ++ ("' needs " ++ (toString nops ++ " operand(s)."))), by
      rw [← h]
      exact str_append_assoc "Error: " "'" (m ++ ("' needs " ++ (toString nops ++ " operand(s).")))⟩
  | case4 acc m op t rest hv hop hlen =>
    rw [asmLoop_one_exn acc m t rest op hop hv] at h
    simp at h
  | case5 acc m op t rest v hv hop hlen ih =>
    rw [asmLoop_one acc m t rest op v hop hv] at h
    exact ih h
  | case6 acc m op t1 t2 rest hv hop hlen =>
    rw [asmLoop_two_exn acc m t1 t2 rest op hop hv] at h
    simp at h
  | case7 acc m op t1 t2 rest v hv hop hlen ih =>
    rw [asmLoop_two acc m t1 t2 rest op v hop hv] at h
    exact ih h
  | case8 acc m op nops hop rest hn1 hn2 hlen ih =>
    match nops, hop with
    | 0, hop =>
      rw [asmLoop_zero_ops acc m rest op hop] at h
      exact ih h
    | 1, hop =>
      match rest, hlen with
      | [], hlen => exact absurd (by simp : ([] : List String).length < 1) hlen
      | t :: rest, _ => exact (hn1 t rest rfl rfl).elim
    | 2, hop =>
      match rest, hlen with
      | [], hlen => exact absurd (by simp : ([] : List String).length < 2) hlen
      | [t], hlen => exact absurd (by simp : [t].length < 2) hlen
      | t1 :: t2 :: rest, _ => exact (hn2 t1 t2 rest rfl rfl).elim
    | n + 3, hop => exact absurd (opcodes_nops m op (n + 3) hop) (by omega)

/-- The rendered report always contains a newline; no assembler status line
does, so the two can never coincide. -/
theorem fullReport_has_newline (st hs : String) (c : Intel8008) :
    Char.ofNat 10 ∈ (fullReport st c hs).data := by
  unfold fullReport
  simp only [String.data_append, List.mem_append]
  refine Or.inl (Or.inl (Or.inl (Or.inl (Or.inl (Or.inl (Or.inl (Or.inl (Or.inl
    (Or.inl (Or.inl (Or.inl (Or.inl (Or.inl (Or.inl (Or.inl (Or.inl (Or.inl
    (Or.inl (Or.inl (Or.inr ?_))))))))))))))))))))
  decide

/-- Memory image of the one-instruction program `HLT`. -/
def memHLT : Nat → Nat := fun a => ([0x01] : List Nat).getD a 0

/-- Memory image of the tight backward jump `JMP 0`. -/
def memJmp : Nat → Nat := fun a => ([0x44, 0x00, 0x00] : List Nat).getD a 0

/-- `JMP 0` leaves the reset state unchanged, so the program never halts. -/
theorem steps_memJmp (k : Nat) : steps k (initCPU memJmp) = initCPU memJmp := by
  induction k with
  | zero => rfl
  | succ k ih =>
    rw [steps_succ, show step (initCPU memJmp) = initCPU memJmp from rfl]
    exact ih

/-- Memory image of `JMP 0xFF00` (operand bytes 0x00, 0xFF). -/
def memJmpHigh : Nat → Nat := fun a => ([0x44, 0x00, 0xFF] : List Nat).getD a 0

/-- Memory image of `CAL 5`. -/
def memCAL : Nat → Nat := fun a => ([0x46, 0x05, 0x00] : List Nat).getD a 0

/-- Memory image of a single `ADB`. -/
def memADB : Nat → Nat := fun a => ([0x80] : List Nat).getD a 0

/-- The ADB example state: A = 200, B = 100 before the `ADB`. -/
def cADB : Intel8008 :=
  { initCPU memADB with regs := { A := 200, B := 100, C := 0, D := 0, E := 0, H := 0, L := 0 } }

/-- Memory image of `JMP 0x1234`. -/
def memJmp3 : Nat → Nat := fun a => ([0x44, 0x34, 0x12] : List Nat).getD a 0

/-- The loaded memory of the screen-demo program
`LHI 14 LLI 238 LAI 65 LMA HLT`. -/
def mem9 : Nat → Nat :=
  fun a => (([0x36, 14, 0x3E, 238, 0x06, 65, 0x77, 0x01] : List Int).getD a 0).toNat

/-- A 0/1-valued flag equals 1 exactly when its defining condition holds. -/
theorem ite_flag_eq_one (p : Prop) [Decidable p] : (if p then (1 : Nat) else 0) = 1 ↔ p := by
  split_ifs with hp
  · simp [hp]
  · simp [hp]

/-! ## Claim theorems -/

/-- C1 (amended: the original claim fails when the halt instruction lands on
the final budgeted iteration): if a program sets the Halted flag strictly
before the final budgeted iteration - that is, after at most 299999 executed
loop bodies - `execute` stops at the next check and reports
"Execution halted normally.". -/
theorem claim1_theorem (c : Intel8008) (k : Nat) (hk : k < 300000)
    (hh : (steps k c).halted = true) :
    (execute c).2 = "Execution halted normally." :=
  execLoop_normal 300000 k c hk hh

/-- C1 counterexample: the counting program `progC1` (a byte program, all
values < 256) first sets Halted during the 300000th - the final budgeted -
iteration, i.e. within the cycle budget, yet `execute` returns the
cycle-limit warning rather than "Execution halted normally.". -/
theorem claim1_counterexample :
    (steps 300000 (initCPU memC1)).halted = true
    ∧ (steps 299999 (initCPU memC1)).halted = false
    ∧ (execute (initCPU memC1)).2 = "Warning: Execution hit max cycle limit."
    ∧ progC1.all (fun v => decide (v < 256)) = true := by
  refine ⟨c1_at_300000, ?_, ?_, by decide⟩
  · rw [c1_at_299999]
    rfl
  · show (execLoop 300000 (initCPU memC1)).2 = _
    rw [execLoop_warn 300000 _ (fun i hi =>
      steps_halted_false 299999 i _ (by rw [c1_at_299999]; rfl) (by omega))]

/-- Witness for C1's amended theorem at the one-instruction program `HLT`. -/
theorem claim1_witness :
    (1 < 300000 ∧ (steps 1 (initCPU memHLT)).halted = true)
    ∧ (execute (initCPU memHLT)).2 = "Execution halted normally." :=
  ⟨⟨by norm_num, by decide⟩, claim1_theorem (initCPU memHLT) 1 (by norm_num) (by decide)⟩

/-- C2 (amended: an invocation whose assembly succeeds with an empty program
prints just the status line, not a report): on assembly failure the whole
output is the single diagnostic, which starts with "Error: "; on success with
non-empty bytecode that loads, the whole output is the rendered report; on
success with empty bytecode the whole output is the assembly status line. -/
theorem claim2_theorem (src : String) :
    (∀ status, assemble src = .ok (none, status) →
      driver src = some status ∧ ∃ r, status = "Error: " ++ r)
    ∧ (∀ (b : Int) (bs : List Int) (status : String) (mem : Nat → Nat),
      assemble src = .ok (some (b :: bs), status) →
      load_program (b :: bs) = some mem →
      driver src = some (fullReport status (execute (initCPU mem)).1
        (execute (initCPU mem)).2))
    ∧ (∀ status, assemble src = .ok (some [], status) → driver src = some status) := by
  refine ⟨fun status h => ⟨?_, asmLoop_err_shape _ _ _ h⟩,
    fun b bs status mem h hl => ?_, fun status h => ?_⟩
  · unfold driver
    rw [h]
  · unfold driver
    rw [h]
    show (match load_program (b :: bs) with
      | none => none
      | some mem =>
        let r := execute (initCPU mem)
        some (fullReport status r.1 r.2)) = _
    rw [hl]
  · unfold driver
    rw [h]

/-- C2 counterexample: on the empty source, assembly succeeds (with empty
bytecode), yet the whole output is the bare status line - never a rendered
report (every report contains a newline, the status line has none) and not an
"Error: <reason>" diagnostic either. -/
theorem claim2_counterexample :
    assemble "" = .ok (some [], sizeMsg 0)
    ∧ driver "" = some (sizeMsg 0)
    ∧ (∀ (st : String) (c : Intel8008) (hs : String),
        some (sizeMsg 0) ≠ some (fullReport st c hs))
    ∧ (∀ r, sizeMsg 0 ≠ "Error: " ++ r) := by
  refine ⟨rfl, rfl, ?_, ?_⟩
  · intro st c hs h
    have h1 : sizeMsg 0 = fullReport st c hs := Option.some.inj h
    have h2 := fullReport_has_newline st hs c
    rw [← h1] at h2
    exact absurd h2 (by decide)
  · intro r h
    obtain ⟨rd⟩ := r
    have h3 : (sizeMsg 0).data.head? = some (Char.ofNat 69) := by
      rw [h]
      rfl
    exact absurd h3 (by decide)

/-- Witness for C2 at `LAI 65 HLT`: assembly succeeds with non-empty
bytecode, the program loads, and the driver prints the full report. -/
theorem claim2_witness :
    assemble "LAI 65 HLT" = .ok (some [6, 65, 1], sizeMsg 3)
    ∧ load_program [6, 65, 1] = some (fun a => (([6, 65, 1] : List Int).getD a 0).toNat)
    ∧ driver "LAI 65 HLT" = some (fullReport (sizeMsg 3)
        (execute (initCPU (fun a => (([6, 65, 1] : List Int).getD a 0).toNat))).1
        (execute (initCPU (fun a => (([6, 65, 1] : List Int).getD a 0).toNat))).2) :=
  ⟨rfl, rfl, ( claim2_theorem "LAI 65 HLT").2.1 6 [65, 1] (sizeMsg 3) _ rfl rfl⟩

/-- C3 (amended: the program counter itself is not confined to 14 bits -
jump targets are 16-bit values and sequential increments are unmasked;
instead every memory access masks its address, so the effective address of
every read and write always lies in [0, 16383]). -/
theorem claim3_theorem (m : Nat → Nat) (a v : Nat) :
    read_mem m a = m (a % 16384)
    ∧ a % 16384 ≤ 16383
    ∧ write_mem m a v = fun x => if x = a % 16384 then v % 256 else m x := by
  refine ⟨?_, by omega, ?_⟩
  · unfold read_mem
    rw [land_16383]
  · unfold write_mem
    funext x
    rw [land_16383, land_255]

/-- C3 counterexample: executing `JMP 0xFF00` (which `assemble` produces
from the well-formed source `JMP 65280 0`) drives the program counter to
65280, outside [0, 16383]. -/
theorem claim3_counterexample :
    (steps 1 (initCPU memJmpHigh)).pc = 65280
    ∧ ¬(steps 1 (initCPU memJmpHigh)).pc ≤ 16383
    ∧ assemble "JMP 65280 0" = .ok (some [0x44, 0x00, 0xFF], sizeMsg 3) :=
  ⟨by decide, by decide, rfl⟩

/-- C4: `execute` performs at most 300000 fetch-decode-execute loop bodies
(its result state is `steps k` of the start state for some k ≤ 300000), and
on a state whose execution never sets Halted during the budget it performs
exactly 300000 of them and returns the cycle-limit warning - it cannot hang,
the loop being bounded by its iteration budget. -/
theorem claim4_theorem (c : Intel8008) :
    (∃ k, k ≤ 300000 ∧ (execute c).1 = steps k c)
    ∧ ((∀ i, i < 300000 → (steps i c).halted = false) →
      execute c = (steps 300000 c, "Warning: Execution hit max cycle limit.")) :=
  ⟨execLoop_le 300000 c, fun h => execLoop_warn 300000 c h⟩

/-- Witness for C4 at the tight backward jump `JMP 0`, which never halts. -/
theorem claim4_witness :
    (∀ i, i < 300000 → (steps i (initCPU memJmp)).halted = false)
    ∧ execute (initCPU memJmp)
      = (steps 300000 (initCPU memJmp), "Warning: Execution hit max cycle limit.") :=
  ⟨fun i _ => by rw [steps_memJmp]; rfl,
    (claim4_theorem (initCPU memJmp)).2 (fun i _ => by rw [steps_memJmp]; rfl)⟩

/-- C5: executing `CAL` whose opcode byte sits at address p stores return
address p + 3 into stack slot sp, advances sp to (sp + 1) % 7 (so seven
consecutive calls wrap the pointer and an 8th overwrites slot 0, with no
error path), and branches unconditionally to the little-endian target; and
no opcode other than `CAL` ever modifies the stack or the stack pointer -
in particular nothing ever pops the stack. -/
theorem claim5_theorem (c : Intel8008) :
    (read_mem c.memory c.pc = 0x46 →
      step c = { c with pc := jumpTarget c
                        sp := (c.sp + 1) % 7
                        stack := c.stack.set c.sp (c.pc + 3) })
    ∧ (read_mem c.memory c.pc ≠ 0x46 →
      (step c).stack = c.stack ∧ (step c).sp = c.sp) :=
  ⟨fun h => step_CAL c h, fun h => step_stack_frame c h⟩

/-- Witness for C5: `CAL 5` at address 0 pushes return address 3 into slot 0
and moves sp to 1; an `HLT` leaves stack and sp untouched. -/
theorem claim5_witness :
    (read_mem (initCPU memCAL).memory (initCPU memCAL).pc = 0x46
      ∧ step (initCPU memCAL) = { initCPU memCAL with
          pc := jumpTarget (initCPU memCAL)
          sp := ((initCPU memCAL).sp + 1) % 7
          stack := (initCPU memCAL).stack.set (initCPU memCAL).sp ((initCPU memCAL).pc + 3) }
      ∧ jumpTarget (initCPU memCAL) = 5
      ∧ (initCPU memCAL).stack.set (initCPU memCAL).sp ((initCPU memCAL).pc + 3)
          = [3, 0, 0, 0, 0, 0, 0]
      ∧ ((initCPU memCAL).sp + 1) % 7 = 1)
    ∧ (read_mem (initCPU memHLT).memory (initCPU memHLT).pc ≠ 0x46
      ∧ (step (initCPU memHLT)).stack = (initCPU memHLT).stack
      ∧ (step (initCPU memHLT)).sp = (initCPU memHLT).sp) :=
  ⟨⟨by decide, (claim5_theorem (initCPU memCAL)).1 (by decide), by decide, by decide,
    by decide⟩,
   ⟨by decide, ((claim5_theorem (initCPU memHLT)).2 (by decide)).1,
    ((claim5_theorem (initCPU memHLT)).2 (by decide)).2⟩⟩

/-- C6: `ADB` sets Carry to 1 iff A + B > 255, replaces A with
(A + B) & 0xFF, advances the PC only past the opcode byte, and recomputes
Zero (1 iff the new A is 0), Sign (1 iff bit 7 of the new A is set) and
Parity (1 iff the popcount of the new A is even). -/
theorem claim6_theorem (c : Intel8008) (h : read_mem c.memory c.pc = 0x80) :
    ((step c).flags.C = 1 ↔ 255 < c.regs.A + c.regs.B)
    ∧ (step c).regs.A = (c.regs.A + c.regs.B) &&& 0xFF
    ∧ ((step c).flags.Z = 1 ↔ (step c).regs.A = 0)
    ∧ ((step c).flags.S = 1 ↔ (step c).regs.A.testBit 7)
    ∧ ((step c).flags.P = 1 ↔ bitCount8 (step c).regs.A % 2 = 0)
    ∧ (step c).pc = c.pc + 1 := by
  rw [step_ADB c h]
  unfold update_flags
  dsimp only
  have hA : ((c.regs.A + c.regs.B) &&& 255) &&& 255 = (c.regs.A + c.regs.B) &&& 255 := by
    rw [land_255, land_255]
    omega
  rw [hA]
  exact ⟨ite_flag_eq_one _, rfl, ite_flag_eq_one _,
    (ite_flag_eq_one _).trans (land_128_testBit _), ite_flag_eq_one _, rfl⟩

/-- Witness for C6 at A = 200, B = 100: result A = 44, Carry = 1, Zero = 0,
Sign = 0, Parity = 0 (popcount of 44 is 3, odd). -/
theorem claim6_witness :
    read_mem cADB.memory cADB.pc = 0x80
    ∧ ((step cADB).flags.C = 1 ↔ 255 < cADB.regs.A + cADB.regs.B)
    ∧ (step cADB).regs.A = 44
    ∧ (step cADB).flags.C = 1 ∧ (step cADB).flags.Z = 0
    ∧ (step cADB).flags.S = 0 ∧ (step cADB).flags.P = 0 :=
  ⟨by decide, (claim6_theorem cADB (by decide)).1, by decide, by decide, by decide,
   by decide, by decide⟩

/-- C7: `JMP` always branches, `JFC` branches iff Carry = 0, `JTC` branches
iff Carry = 1; a taken branch sets the PC to the little-endian target read
from the two operand bytes, and a branch not taken leaves the PC exactly 2
past the operand read position, i.e. on the byte after the 3-byte
instruction. -/
theorem claim7_theorem (c : Intel8008) :
    (read_mem c.memory c.pc = 0x44 → step c = { c with pc := jumpTarget c })
    ∧ (read_mem c.memory c.pc = 0x40 →
      (c.flags.C = 0 → step c = { c with pc := jumpTarget c })
      ∧ (c.flags.C ≠ 0 → step c = { c with pc := c.pc + 3 }))
    ∧ (read_mem c.memory c.pc = 0x48 →
      (c.flags.C = 1 → step c = { c with pc := jumpTarget c })
      ∧ (c.flags.C ≠ 1 → step c = { c with pc := c.pc + 3 })) :=
  ⟨fun h => step_JMP c h,
   fun h => ⟨fun hc => step_JFC_taken c h hc, fun hc => step_JFC_not c h hc⟩,
   fun h => ⟨fun hc => step_JTC_taken c h hc, fun hc => step_JTC_not c h hc⟩⟩

/-- Witness for C7 at `JMP 0x1234`: the little-endian operand bytes 0x34 and
0x12 form target 4660 and the jump is taken. -/
theorem claim7_witness :
    read_mem (initCPU memJmp3).memory (initCPU memJmp3).pc = 0x44
    ∧ step (initCPU memJmp3) = { initCPU memJmp3 with pc := jumpTarget (initCPU memJmp3) }
    ∧ jumpTarget (initCPU memJmp3) = 4660 :=
  ⟨by decide, (claim7_theorem (initCPU memJmp3)).1 (by decide), by decide⟩

/-- C8: a token in mnemonic position outside the opcode table makes the
assembler return None paired with exactly "Error: Unknown mnemonic '<token>'",
and too few remaining operand tokens make it return None paired with exactly
"Error: '<mnemonic>' needs <n> operand(s)." - in both cases independently of
the bytecode accumulated so far, so no partial bytecode is returned. -/
theorem claim8_theorem (acc : List Int) (m : String) (rest : List String) :
    (opcodes m = none → asmLoop acc (m :: rest) = .ok (none, unknownMsg m))
    ∧ (∀ op n, opcodes m = some (op, n) → rest.length < n →
      asmLoop acc (m :: rest) = .ok (none, needsMsg m n)) :=
  ⟨fun h => asmLoop_unknown acc m rest h,
   fun op n h hlen => asmLoop_needs acc m rest op n h hlen⟩

/-- Witness for C8: `FOO` is not a mnemonic, `LAI` alone lacks its operand,
and the two diagnostics are exactly the documented strings. -/
theorem claim8_witness :
    (opcodes "FOO" = none ∧ asmLoop [] ["FOO"] = .ok (none, unknownMsg "FOO"))
    ∧ (opcodes "LAI" = some (0x06, 1) ∧ ([] : List String).length < 1
      ∧ asmLoop [] ["LAI"] = .ok (none, needsMsg "LAI" 1))
    ∧ assemble "FOO" = .ok (none, unknownMsg "FOO")
    ∧ assemble "LAI" = .ok (none, needsMsg "LAI" 1)
    ∧ unknownMsg "FOO" = "Error: Unknown mnemonic 'FOO'"
    ∧ needsMsg "LAI" 1 = "Error: 'LAI' needs 1 operand(s)." :=
  ⟨⟨by decide, (claim8_theorem [] "FOO" []).1 (by decide)⟩,
   ⟨by decide, by decide, (claim8_theorem [] "LAI" []).2 6 1 (by decide) (by decide)⟩,
   rfl, rfl, rfl, rfl⟩

/-- C9: assembling `LHI 14 LLI 238 LAI 65 LMA HLT` yields the 8-byte
program; running it forms HL = (14 & 0x3F) << 8 | 238 = 0x0EEE, writes 65
into address 0x0EEE, halts normally well within the budget, and the rendered
screen window starting at 0xEEE therefore begins with the character A. -/
theorem claim9_theorem :
    assemble "LHI 14 LLI 238 LAI 65 LMA HLT"
      = .ok (some [0x36, 14, 0x3E, 238, 0x06, 65, 0x77, 0x01], sizeMsg 8)
    ∧ load_program [0x36, 14, 0x3E, 238, 0x06, 65, 0x77, 0x01] = some mem9
    ∧ get_hl (steps 3 (initCPU mem9)).regs = 0x0EEE
    ∧ (steps 4 (initCPU mem9)).memory 0x0EEE = 65
    ∧ (execute (initCPU mem9)).2 = "Execution halted normally."
    ∧ (execute (initCPU mem9)).1.halted = true
    ∧ (get_screen (execute (initCPU mem9)).1.memory).data.head? = some 'A' :=
  ⟨rfl, rfl, by decide, by decide, rfl, rfl, by decide⟩

/-- C10: a 1-operand literal is emitted exactly as `int()` parsed it - never
truncated to 8 bits - so an out-of-range literal such as `LAI 300` assembles
to a non-byte sequence; loading any list containing a value outside [0, 255]
raises (bytearray assignment rejects it), and the driver then produces no
report at all. -/
theorem claim10_theorem :
    (∀ (acc : List Int) (m t : String) (rest : List String) (op : Nat) (v : Int),
      opcodes m = some (op, 1) → pyInt t = some v →
      asmLoop acc (m :: t :: rest) = asmLoop (acc ++ [(op : Int), v]) rest)
    ∧ (∀ (b : List Int) (v : Int), v ∈ b → (v < 0 ∨ 255 < v) → load_program b = none)
    ∧ assemble "LAI 300" = .ok (some [6, 300], sizeMsg 2)
    ∧ load_program [6, 300] = none
    ∧ driver "LAI 300" = none := by
  refine ⟨fun acc m t rest op v h hv => asmLoop_one acc m t rest op v h hv,
    ?_, rfl, rfl, rfl⟩
  intro b v hv hrange
  have hfalse : ¬(b.all (fun v => decide (0 ≤ v ∧ v < 256)) = true) := by
    intro hall
    rw [List.all_eq_true] at hall
    have h2 := hall v hv
    simp at h2
    omega
  unfold load_program
  rw [if_neg hfalse]

/-- Witness for C10: `LAI 300` parses to the unmasked 300, and loading the
resulting two-value list fails on the out-of-range 300. -/
theorem claim10_witness :
    (opcodes "LAI" = some (6, 1) ∧ pyInt "300" = some 300
      ∧ asmLoop [] ["LAI", "300"] = asmLoop ([] ++ [(6 : Int), 300]) [])
    ∧ ((300 : Int) ∈ [(6 : Int), 300] ∧ (255 : Int) < 300
      ∧ load_program [6, 300] = none) :=
  ⟨⟨by decide, by decide,
    claim10_theorem.1 [] "LAI" "300" [] 6 300 (by decide) (by decide)⟩,
   ⟨by decide, by decide,
    claim10_theorem.2.1 [6, 300] 300 (by decide) (Or.inr (by decide))⟩⟩

end Nsb8
